import Mathlib

/-!
Verification of the golang-bank-api repository against its natural-language
specification.  The Go source is shallowly embedded: pure computations become
Lean functions, the HTTP/JSON/DB side effects become explicit state passing,
`time.Time` values become integer Unix timestamps, and Go `int` / `int64`
become `Int` (every value occurring in this development stays far below
2 ^ 63, so 64-bit wraparound is never observable).  Fallible Go code returns
`Except String` mirroring Go's `error` results.
-/

namespace GoBank

/-- Mirrors the Go struct `Account` (src/types.go lines 8-16).  Field names
are the Go field names in lowerCamel; `time.Time` fields are Unix seconds. -/
structure Account where
  id : Int
  firstName : String
  lastName : String
  number : Int
  balance : Int
  createdAt : Int
  updatedAt : Int
deriving Repr, DecidableEq

/-- Mirrors the Go struct `CreateAccountRequest` (src/types.go lines 18-23). -/
structure CreateAccountRequest where
  firstName : String
  lastName : String
  createdAt : Int
  updatedAt : Int
deriving Repr, DecidableEq

/-- Mirrors the Go struct `UpdateAccountRequest` (src/types.go lines 25-29). -/
structure UpdateAccountRequest where
  firstName : String
  lastName : String
  updatedAt : Int
deriving Repr, DecidableEq

/-- Modelled from the spec: the `TransferRequest` type used by
`handleTransfer` (src/unnamed/part_000 lines 49-57) is not among the provided
source files.  Per the spec, a transfer request is only decoded and echoed
back, "never applied to balances", so its fields are irrelevant to every
claim; we keep a single payload field. -/
structure TransferRequest where
  payload : String
deriving Repr, DecidableEq

/-- Contract of the Go library call `rand.Intn n` (math/rand): a value in
the interval `[0, n)`, here obtained from an arbitrary entropy source value
by reduction modulo `n`. -/
def randIntn (source n : Nat) : Nat := source % n

/-- Mirrors `NewAccount` (src/types.go lines 31-40).  The Go struct literal
never sets `ID`, so it keeps the Go zero value 0; `Number` is
`rand.Intn(100000000)`; both timestamps are the current time. -/
def NewAccount (firstName lastName : String) (randSource : Nat) (now : Int) : Account :=
  { id := 0
    firstName := firstName
    lastName := lastName
    number := (randIntn randSource 100000000 : Nat)
    balance := 0
    createdAt := now
    updatedAt := now }

/-- A value stored in a JWT claims map.  JSON numbers are modelled as exact
integers: every number this program puts in a claim (an account number below
100000000 and a Unix timestamp) is far below 2 ^ 53 and hence exactly
representable by the float64 the Go library decodes into. -/
inductive ClaimValue
  | num (n : Int)
  | str (s : String)
deriving Repr, DecidableEq

/-- Signing algorithms relevant to `validateJWTToken`: the three members of
the symmetric HMAC family accepted by the keyfunc, and two representative
non-HMAC algorithms. -/
inductive SigAlg
  | HS256
  | HS384
  | HS512
  | RS256
  | ES256
deriving Repr, DecidableEq

/-- Whether the algorithm is in the symmetric HMAC family, that is, whether
the Go type assertion `token.Method.(*jwt.SigningMethodHMAC)` succeeds. -/
def SigAlg.isHMAC : SigAlg → Bool
  | .HS256 => true
  | .HS384 => true
  | .HS512 => true
  | _ => false

/-- A structurally well-formed signed token.  `signedWith` records the secret
whose HMAC signature the token carries, modelling signature integrity: the
library accepts the signature exactly when this secret equals the
verification key. -/
structure SignedToken where
  alg : SigAlg
  claims : List (String × ClaimValue)
  signedWith : String
deriving Repr, DecidableEq

/-- The bearer token material taken from the Authorization header: either a
string that does not even parse as a token, or a structurally valid token. -/
inductive TokenInput
  | malformed
  | token (t : SignedToken)
deriving Repr, DecidableEq

/-- Mirrors `createJWTToken` (src/unnamed/part_000 lines 180-189): claims are
the account number under the (misspelled) key "acountNumber" and an expiry
72 hours from now; signed with HMAC-SHA256 under the process-wide secret. -/
def createJWTToken (secret : String) (now : Int) (account : Account) : SignedToken :=
  { alg := .HS256
    claims := [("acountNumber", .num account.number), ("exp", .num (now + 72 * 3600))]
    signedWith := secret }

/-- Mirrors `validateJWTToken` (src/unnamed/part_000 lines 236-245) together
with the contract of the external golang-jwt v5 library it calls (spec, Token
Codec): `jwt.Parse` first runs the keyfunc, which here rejects any
non-HMAC algorithm; then verifies the HMAC signature against the returned
secret; then validates registered claims, rejecting a token whose expiry
lies in the past (a missing expiry is not an error by default). -/
def validateJWTToken (secret : String) (now : Int) : TokenInput → Except String SignedToken
  | .malformed => .error "token contains an invalid number of segments"
  | .token t =>
    if t.alg.isHMAC = false then
      .error "unexpected signing method"
    else if t.signedWith ≠ secret then
      .error "signature is invalid"
    else
      match t.claims.lookup "exp" with
      | some (.num e) =>
        if e < now then .error "token has invalid claims: token is expired" else .ok t
      | some (.str _) => .error "token has invalid claims: invalid type for claim"
      | none => .ok t

/-- Digits-to-number helper used by the model of `strconv.Atoi`. -/
def digitsToNat (ds : List Char) : Nat :=
  ds.foldl (fun a c => a * 10 + (c.toNat - 48)) 0

/-- Model of Go `strconv.Atoi`: an optional sign followed by at least one
decimal digit; anything else (in particular the empty string) is an error.
Go additionally rejects values outside the 64-bit range; no identifier in
this development comes near that bound. -/
def atoi (s : String) : Option Int :=
  match s.data with
  | [] => none
  | '-' :: ds =>
    if ds ≠ [] ∧ ds.all Char.isDigit then some (-(digitsToNat ds : Int)) else none
  | '+' :: ds =>
    if ds ≠ [] ∧ ds.all Char.isDigit then some (digitsToNat ds : Int) else none
  | ds =>
    if ds ≠ [] ∧ ds.all Char.isDigit then some (digitsToNat ds : Int) else none

/-- Mirrors `getId` (src/unnamed/part_000 lines 265-272).  `mux.Vars r` is
the path-variable map of the matched route, modelled as an association list;
indexing a Go map at a missing key yields the zero value "". -/
def getId (pathVars : List (String × String)) : Except String Int :=
  let idStr := (pathVars.lookup "id").getD ""
  match atoi idStr with
  | some id => .ok id
  | none => .error ("invalid account ID: " ++ idStr)

/-- One call to `WriteJSON` (src/unnamed/part_000 lines 29-33): the status
code passed to `WriteHeader` and the encoded body. -/
structure ApiWrite where
  status : Nat
  body : String
deriving Repr, DecidableEq

/-- JSON encoding of the Go struct `ApiError` by `json.Encoder.Encode`,
which appends a newline.  Valid for messages without JSON escapes, which
covers every message this program produces. -/
def ApiError.encode (msg : String) : String :=
  "\x7b\"error\":\"" ++ msg ++ "\"\x7d\n"

/-- The single write performed by `permissionDenied` (src/unnamed/part_000
lines 191-193): status 403 with the uniform error body. -/
def permissionDeniedWrite : ApiWrite :=
  { status := 403, body := ApiError.encode "permission denied" }

/-- Outcome of one request through the middleware: the ordered list of
`WriteJSON` calls made on the response writer together with whether the
wrapped handler ran, or a runtime panic (a failed type assertion). -/
inductive MwResult
  | output (writes : List ApiWrite) (handlerRan : Bool)
  | panicked
deriving Repr, DecidableEq

/-- Mirrors `withJWTAuth` (src/unnamed/part_000 lines 195-234).  The store
is the `Storage` interface value, abstracted to its `GetAccountById` method;
the wrapped handler is abstracted to the writes it would perform.  The Go
`!token.Valid` check never fires on the success path because golang-jwt v5
returns a token with `Valid = true` whenever `Parse` returns a nil error.
Faithful detail: in the final ownership check the Go code calls
`permissionDenied(w)` on a mismatch but does not return, so `fn(w, r)` runs
in either case; and `claims["acountNumber"].(float64)` panics when the key
is absent or holds a non-number. -/
def withJWTAuth (secret : String) (now : Int)
    (getAccountById : Int → Except String Account)
    (handlerWrites : List ApiWrite)
    (pathVars : List (String × String))
    (authHeader : TokenInput) : MwResult :=
  match validateJWTToken secret now authHeader with
  | .error _ => .output [permissionDeniedWrite] false
  | .ok tok =>
    match getId pathVars with
    | .error _ => .output [permissionDeniedWrite] false
    | .ok userID =>
      match getAccountById userID with
      | .error _ => .output [permissionDeniedWrite] false
      | .ok account =>
        match tok.claims.lookup "acountNumber" with
        | some (.num n) =>
          if account.number ≠ n then
            .output (permissionDeniedWrite :: handlerWrites) true
          else
            .output handlerWrites true
        | _ => .panicked

/-- A parameter value passed to `db.Exec` / `db.Query`: the Go arguments in
this program are strings and 64-bit integers (timestamps included, as Unix
seconds). -/
inductive SqlValue
  | s (v : String)
  | i (v : Int)
deriving Repr, DecidableEq

/-- SQL tokens, following the PostgreSQL lexer on the fragment these queries
use: identifiers and keywords, positional parameters, numbers and
punctuation.  Crucially, `$1updated_at` lexes as the parameter `$1`
immediately followed by the identifier `updated_at`. -/
inductive Tok
  | ident (s : String)
  | param (n : Nat)
  | num (n : Nat)
  | comma
  | lparen
  | rparen
  | eq
  | star
deriving Repr, DecidableEq

def isIdentStart (c : Char) : Bool := c.isAlpha || c = '_'

def isIdentChar (c : Char) : Bool := c.isAlphanum || c = '_'

def isSqlSpace (c : Char) : Bool := c = ' ' || c = '\n' || c = '\t'

/-- Fuelled lexer over the character list; each step consumes at least the
head character, so `length + 1` fuel always suffices. -/
def lexChars : Nat → List Char → Option (List Tok)
  | 0, _ => none
  | _, [] => some []
  | fuel + 1, c :: cs =>
    if isSqlSpace c then lexChars fuel cs
    else if c = ',' then (lexChars fuel cs).map (Tok.comma :: ·)
    else if c = '(' then (lexChars fuel cs).map (Tok.lparen :: ·)
    else if c = ')' then (lexChars fuel cs).map (Tok.rparen :: ·)
    else if c = '=' then (lexChars fuel cs).map (Tok.eq :: ·)
    else if c = '*' then (lexChars fuel cs).map (Tok.star :: ·)
    else if c = '$' then
      let ds := cs.takeWhile Char.isDigit
      if ds.isEmpty then none
      else (lexChars fuel (cs.dropWhile Char.isDigit)).map (Tok.param (digitsToNat ds) :: ·)
    else if c.isDigit then
      (lexChars fuel (cs.dropWhile Char.isDigit)).map
        (Tok.num (digitsToNat ((c :: cs).takeWhile Char.isDigit)) :: ·)
    else if isIdentStart c then
      (lexChars fuel (cs.dropWhile isIdentChar)).map
        (Tok.ident (String.mk (c :: cs.takeWhile isIdentChar)) :: ·)
    else none

def lexSql (q : String) : Option (List Tok) :=
  lexChars (q.length + 1) q.data

/-- Right-hand side of a SET assignment in the queries at hand: a positional
parameter or the `NOW()` function call. -/
inductive Rhs
  | p (n : Nat)
  | nowFn
deriving Repr, DecidableEq

def parseRhs : List Tok → Option (Rhs × List Tok)
  | .param n :: rest => some (.p n, rest)
  | .ident "NOW" :: .lparen :: .rparen :: rest => some (.nowFn, rest)
  | _ => none

/-- Comma-separated list of `column = rhs` assignments. -/
def parseAssigns : Nat → List Tok → Option (List (String × Rhs) × List Tok)
  | 0, _ => none
  | fuel + 1, .ident c :: .eq :: rest =>
    (match parseRhs rest with
     | some (r, .comma :: rest2) =>
       match parseAssigns fuel rest2 with
       | some (as, rem) => some ((c, r) :: as, rem)
       | none => none
     | some (r, rest2) => some ([(c, r)], rest2)
     | none => none)
  | _ + 1, _ => none

/-- Comma-separated list of identifiers (an INSERT column list). -/
def parseIdentList : Nat → List Tok → Option (List String × List Tok)
  | 0, _ => none
  | fuel + 1, .ident c :: .comma :: rest =>
    (match parseIdentList fuel rest with
     | some (cs, rem) => some (c :: cs, rem)
     | none => none)
  | _ + 1, .ident c :: rest => some ([c], rest)
  | _ + 1, _ => none

/-- Comma-separated list of positional parameters (an INSERT VALUES list). -/
def parseParamList : Nat → List Tok → Option (List Nat × List Tok)
  | 0, _ => none
  | fuel + 1, .param n :: .comma :: rest =>
    (match parseParamList fuel rest with
     | some (ns, rem) => some (n :: ns, rem)
     | none => none)
  | _ + 1, .param n :: rest => some ([n], rest)
  | _ + 1, _ => none

/-- The modification statements this program issues against the `accounts`
table. -/
inductive Stmt
  | insertInto (cols : List String) (vals : List Nat)
  | updateSet (assigns : List (String × Rhs)) (whereParam : Nat)
  | deleteFrom (whereParam : Nat)
deriving Repr, DecidableEq

/-- Parser for the grammar fragment
`INSERT INTO accounts (cols) VALUES (params)`,
`UPDATE accounts SET assigns WHERE id = $k` and
`DELETE FROM accounts WHERE id = $k`; anything else is a syntax error, in
particular a parameter token directly followed by an identifier. -/
def parseStmt (toks : List Tok) : Option Stmt :=
  match toks with
  | .ident "INSERT" :: .ident "INTO" :: .ident "accounts" :: .lparen :: rest =>
    (match parseIdentList (rest.length + 1) rest with
     | some (cols, .rparen :: .ident "VALUES" :: .lparen :: rest2) =>
       (match parseParamList (rest2.length + 1) rest2 with
        | some (vals, [.rparen]) => some (.insertInto cols vals)
        | _ => none)
     | _ => none)
  | .ident "UPDATE" :: .ident "accounts" :: .ident "SET" :: rest =>
    (match parseAssigns (rest.length + 1) rest with
     | some (as, [.ident "WHERE", .ident "id", .eq, .param k]) => some (.updateSet as k)
     | _ => none)
  | .ident "DELETE" :: .ident "FROM" :: .ident "accounts" ::
      .ident "WHERE" :: .ident "id" :: .eq :: .param k :: rest =>
    (match rest with
     | [] => some (.deleteFrom k)
     | _ => none)
  | _ => none

def Rhs.params : Rhs → List Nat
  | .p n => [n]
  | .nowFn => []

def Stmt.params : Stmt → List Nat
  | .insertInto _ vals => vals
  | .updateSet as k => (as.map (fun a => a.2.params)).flatten ++ [k]
  | .deleteFrom k => [k]

def maxParam (ps : List Nat) : Nat := ps.foldr max 0

/-- PostgreSQL parameter discipline: a statement requires as many bound
arguments as its highest positional parameter, and every index up to that
maximum must occur in the statement (otherwise its type cannot be
determined).  A mismatch fails the statement. -/
def paramsOk (ps : List Nat) (argc : Nat) : Bool :=
  maxParam ps = argc && (List.range argc).all (fun i => ps.contains (i + 1))

/-- The persistent state: the rows of the `accounts` table plus the SERIAL
counter backing the `id` column (which starts at 1). -/
structure DB where
  accounts : List Account
  nextId : Int
deriving Repr, DecidableEq

def DB.empty : DB := { accounts := [], nextId := 1 }

/-- Assign one column of the `accounts` table. -/
def setCol (a : Account) : String × SqlValue → Account
  | ("first_name", .s v) => { a with firstName := v }
  | ("last_name", .s v) => { a with lastName := v }
  | ("number", .i v) => { a with number := v }
  | ("balance", .i v) => { a with balance := v }
  | ("created_at", .i v) => { a with createdAt := v }
  | ("updated_at", .i v) => { a with updatedAt := v }
  | _ => a

/-- Apply one SET assignment given the bound arguments and current time. -/
def applyAssign (now : Int) (args : List SqlValue) (a : Account) : String × Rhs → Account
  | (c, .p n) =>
    (match args.get? (n - 1) with
     | some v => setCol a (c, v)
     | none => a)
  | ("updated_at", .nowFn) => { a with updatedAt := now }
  | ("created_at", .nowFn) => { a with createdAt := now }
  | (_, .nowFn) => a

/-- Per-statement semantics of `db.Exec` against PostgreSQL on the fragment
this program uses.  A statement that fails to lex or parse, binds the wrong
number of parameters, mismatches the INSERT column and value counts, or
violates the unique constraint on `number`, errors and leaves the state
unchanged (statement-level atomicity).  A DELETE or UPDATE matching zero
rows succeeds. -/
def pgExec (now : Int) (q : String) (args : List SqlValue) (db : DB) :
    Except String Unit × DB :=
  match lexSql q with
  | none => (.error "syntax error", db)
  | some toks =>
    match parseStmt toks with
    | none => (.error "syntax error", db)
    | some (.insertInto cols vals) =>
      if cols.length ≠ vals.length then
        (.error "INSERT has more target columns than expressions", db)
      else if paramsOk vals args.length = false then
        (.error "bind message parameter count mismatch", db)
      else
        let received := vals.map (fun n => (args.get? (n - 1)).getD (.i 0))
        let acct := (cols.zip received).foldl setCol
          { id := db.nextId, firstName := "", lastName := "", number := 0,
            balance := 0, createdAt := now, updatedAt := now }
        if db.accounts.any (fun b => b.number == acct.number) then
          (.error "duplicate key value violates unique constraint", db)
        else
          (.ok (), { accounts := db.accounts ++ [acct], nextId := db.nextId + 1 })
    | some (.updateSet assigns k) =>
      if paramsOk (Stmt.params (.updateSet assigns k)) args.length = false then
        (.error "bind message parameter count mismatch", db)
      else
        (match args.get? (k - 1) with
         | some (.i idv) =>
           let rows := db.accounts.map (fun a =>
             if a.id = idv then assigns.foldl (applyAssign now args) a else a)
           (.ok (), { db with accounts := rows })
         | _ => (.error "operator does not exist", db))
    | some (.deleteFrom k) =>
      if paramsOk [k] args.length = false then
        (.error "bind message parameter count mismatch", db)
      else
        (match args.get? (k - 1) with
         | some (.i idv) =>
           (.ok (), { db with accounts := db.accounts.filter (fun a => a.id != idv) })
         | _ => (.error "operator does not exist", db))

/-- The read-only queries this program issues. -/
inductive QueryStmt
  | selectAll
  | selectById (whereParam : Nat)
deriving Repr, DecidableEq

def parseQuery (toks : List Tok) : Option QueryStmt :=
  match toks with
  | [.ident "SELECT", .star, .ident "FROM", .ident "accounts"] => some .selectAll
  | [.ident "SELECT", .star, .ident "FROM", .ident "accounts",
     .ident "WHERE", .ident "id", .eq, .param k] => some (.selectById k)
  | _ => none

/-- Semantics of `db.Query` on the two SELECT statements of the program;
`SELECT *` returns the columns in table order, which `scanIntoAccount` reads
back field by field, so rows are returned directly as `Account` values. -/
def pgQuery (q : String) (args : List SqlValue) (db : DB) :
    Except String (List Account) :=
  match lexSql q with
  | none => .error "syntax error"
  | some toks =>
    match parseQuery toks with
    | none => .error "syntax error"
    | some .selectAll =>
      if args.length = 0 then .ok db.accounts
      else .error "bind message parameter count mismatch"
    | some (.selectById k) =>
      if paramsOk [k] args.length = false then
        .error "bind message parameter count mismatch"
      else
        (match args.get? (k - 1) with
         | some (.i idv) => .ok (db.accounts.filter (fun a => a.id == idv))
         | _ => .error "operator does not exist")

/-- The exact SQL string of `CreateAccount` (src/types.go lines 191-192),
including the trailing space, newline and tab inside the Go raw string
literal: six target columns but only four value placeholders. -/
def createAccountQuery : String :=
  "INSERT INTO accounts (first_name, last_name, number, balance, created_at, updated_at) \n\tVALUES ($1, $2, $3, $4)"

/-- Mirrors `CreateAccount` (src/types.go lines 190-210): executes the INSERT
with the six account fields as arguments. -/
def PostgresStore.CreateAccount (now : Int) (account : Account) (db : DB) :
    Except String Unit × DB :=
  pgExec now createAccountQuery
    [.s account.firstName, .s account.lastName, .i account.number,
     .i account.balance, .i account.createdAt, .i account.updatedAt] db

/-- Mirrors `DeleteAccount` (src/types.go lines 212-224): executes the DELETE
and returns nil without inspecting the affected-row count.  The statement
contains no `NOW()`, so the time argument of `pgExec` is irrelevant. -/
def PostgresStore.DeleteAccount (id : Int) (db : DB) : Except String Unit × DB :=
  pgExec 0 "DELETE FROM accounts WHERE id = $1" [.i id] db

/-- Models the Go byte-slice expression `queryBuffer.String()[:queryBuffer.Len()-2]`
on the ASCII strings built by `UpdateAccount`. -/
def dropLast2 (s : String) : String := String.mk s.data.dropLast.dropLast

/-- Mirrors the dynamic query construction of `UpdateAccount` (src/types.go
lines 226-266): `none` when no field is provided (the Go code then returns
its error without executing anything), otherwise the built query string and
the argument list `append(updatedFields, id)`. -/
def buildUpdateQuery (req : UpdateAccountRequest) (id : Int) :
    Option (String × List SqlValue) :=
  let buf0 := "UPDATE accounts SET "
  let step1 :=
    if req.firstName ≠ "" then
      (buf0 ++ "first_name = $1, ", [SqlValue.s req.firstName], true)
    else (buf0, ([] : List SqlValue), false)
  let step2 :=
    if req.lastName ≠ "" then
      (step1.1 ++ "last_name = $2, ", step1.2.1 ++ [SqlValue.s req.lastName], true)
    else step1
  if step2.2.2 then
    some (dropLast2 step2.1 ++ "updated_at = NOW() WHERE id = $3",
      step2.2.1 ++ [SqlValue.i id])
  else none

/-- Mirrors `UpdateAccount` (src/types.go lines 226-266): execute the built
query, or fail with the no-fields error when nothing was provided. -/
def PostgresStore.UpdateAccount (now : Int) (id : Int) (req : UpdateAccountRequest)
    (db : DB) : Except String Unit × DB :=
  match buildUpdateQuery req id with
  | some (q, args) => pgExec now q args db
  | none => (.error "no fields provided for update", db)

/-- Mirrors `GetAccountById` (src/types.go lines 268-277): first row of the
SELECT, or the not-found error. -/
def PostgresStore.GetAccountById (id : Int) (db : DB) : Except String Account :=
  match pgQuery "SELECT * FROM accounts WHERE id = $1" [.i id] db with
  | .error e => .error e
  | .ok (a :: _) => .ok a
  | .ok [] => .error ("account with id " ++ toString id ++ " not found")

/-- Mirrors `GetAccounts` (src/types.go lines 279-293). -/
def PostgresStore.GetAccounts (db : DB) : Except String (List Account) :=
  pgQuery "SELECT * FROM accounts" [] db

/-- Mirrors `handleCreateAccount` (src/unnamed/part_000 lines 127-149) after
a successful JSON decode: build the in-memory account, ask the store to
persist it, then on success issue a token and answer with the in-memory
account value (whose `id` field the Go code never fills in). -/
def handleCreateAccount (now : Int) (randSource : Nat) (secret : String)
    (req : CreateAccountRequest) (db : DB) :
    Except String (Account × SignedToken) × DB :=
  let account := NewAccount req.firstName req.lastName randSource now
  match PostgresStore.CreateAccount now account db with
  | (.error e, db2) => (.error e, db2)
  | (.ok _, db2) => (.ok (account, createJWTToken secret now account), db2)

/-- Mirrors `handleTransfer` (src/unnamed/part_000 lines 49-57): the decoded
request is echoed back and the store is never consulted. -/
def handleTransfer (req : TransferRequest) (db : DB) : TransferRequest × DB :=
  (req, db)

/-- One operation of the core, as dispatched by the request handlers. -/
inductive Op
  | create (req : CreateAccountRequest) (randSource : Nat) (now : Int)
  | readAll
  | readOne (id : Int)
  | update (id : Int) (req : UpdateAccountRequest) (now : Int)
  | delete (id : Int)
  | transfer (req : TransferRequest)
deriving Repr

/-- The store state after one operation; reads leave it unchanged, and the
token issued on create does not touch the store. -/
def runOp (db : DB) : Op → DB
  | .create req randSource now =>
    (PostgresStore.CreateAccount now (NewAccount req.firstName req.lastName randSource now) db).2
  | .readAll => db
  | .readOne _ => db
  | .update id req now => (PostgresStore.UpdateAccount now id req db).2
  | .delete id => (PostgresStore.DeleteAccount id db).2
  | .transfer req => (handleTransfer req db).2

/-- The store state after a sequence of operations. -/
def runOps (db : DB) (ops : List Op) : DB := ops.foldl runOp db

/-! Helper lemmas shared by the claim theorems. -/

/-- The INSERT of `CreateAccount` always fails: it names six target columns
but supplies only four value placeholders, so the statement is rejected and
the state is unchanged, whatever the account and state. -/
theorem createAccount_error (now : Int) (account : Account) (db : DB) :
    PostgresStore.CreateAccount now account db =
      (.error "INSERT has more target columns than expressions", db) := rfl

/-- Evaluation of `DeleteAccount`: the statement parses, binds its single
parameter and removes exactly the rows whose id matches. -/
theorem deleteAccount_eq (id : Int) (db : DB) :
    PostgresStore.DeleteAccount id db =
      (.ok (), { db with accounts := db.accounts.filter (fun a => a.id != id) }) := rfl

/-- Whatever the request, `UpdateAccount` leaves the state unchanged: with no
field provided it errors before executing, and each of the three built query
strings is rejected as a syntax error (the comma-and-space stripping glues
the last placeholder onto `updated_at`). -/
theorem updateAccount_snd (now id : Int) (req : UpdateAccountRequest) (db : DB) :
    (PostgresStore.UpdateAccount now id req db).2 = db := by
  unfold PostgresStore.UpdateAccount buildUpdateQuery
  by_cases h1 : req.firstName = "" <;> by_cases h2 : req.lastName = "" <;>
    simp [h1, h2] <;> rfl

/-- One operation preserves the all-balances-zero invariant. -/
theorem runOp_balance (db : DB) (op : Op) (h : ∀ a ∈ db.accounts, a.balance = 0) :
    ∀ a ∈ (runOp db op).accounts, a.balance = 0 := by
  cases op with
  | create req randSource now =>
    simp only [runOp, createAccount_error]
    exact h
  | readAll => exact h
  | readOne i => exact h
  | update i req now =>
    simp only [runOp, updateAccount_snd]
    exact h
  | delete i =>
    intro a ha
    simp only [runOp, deleteAccount_eq] at ha
    exact h a (List.mem_of_mem_filter ha)
  | transfer req => exact h

/-- A token failing the keyfunc or the signature check is rejected by
`validateJWTToken` with some error. -/
theorem validate_error_of_bad (secret : String) (now : Int) (t : SignedToken)
    (h : t.alg.isHMAC = false ∨ t.signedWith ≠ secret) :
    ∃ msg, validateJWTToken secret now (.token t) = .error msg := by
  by_cases h1 : t.alg.isHMAC = false
  · exact ⟨"unexpected signing method", by simp [validateJWTToken, h1]⟩
  · rcases h with h | h2
    · exact absurd h h1
    · exact ⟨"signature is invalid", by simp [validateJWTToken, h1, h2]⟩

/-! Claim theorems. -/

/-- C1: a request carrying a validly signed, unexpired token whose embedded
account-number claim (99) differs from the number (42) of the account the
path id resolves to.  The middleware does write the uniform permission-denied
body, but it does not short-circuit: the wrapped handler still runs, because
the Go code misses a `return` after the final `permissionDenied(w)` call
(src/unnamed/part_000 lines 228-232), unlike the five earlier checks. -/
theorem ownershipMismatchStillRunsHandler :
    validateJWTToken "secret" 0
        (.token ⟨.HS256, [("acountNumber", .num 99), ("exp", .num 1000)], "secret"⟩) =
      .ok ⟨.HS256, [("acountNumber", .num 99), ("exp", .num 1000)], "secret"⟩ ∧
    withJWTAuth "secret" 0
        (fun i => if i = 1 then .ok ⟨1, "Ada", "Lovelace", 42, 0, 0, 0⟩ else .error "nope")
        [{ status := 200, body := "ok" }] [("id", "1")]
        (.token ⟨.HS256, [("acountNumber", .num 99), ("exp", .num 1000)], "secret"⟩) =
      .output [permissionDeniedWrite, { status := 200, body := "ok" }] true :=
  ⟨rfl, rfl⟩

/-- C2: at an existing record (id 1) and an UpdateRequest providing only a
first name, the builder emits the malformed statement
"UPDATE accounts SET first_name = $1updated_at = NOW() WHERE id = $3"
(the comma-and-space stripping removes the separator before `updated_at`,
and placeholder 3 is bound with only two arguments), so the update operation
errors with the state unchanged instead of changing the first name and the
updated-timestamp. -/
theorem singleFieldUpdateRejected :
    buildUpdateQuery ⟨"Grace", "", 0⟩ 1 =
      some ("UPDATE accounts SET first_name = $1updated_at = NOW() WHERE id = $3",
        [.s "Grace", .i 1]) ∧
    PostgresStore.UpdateAccount 99 1 ⟨"Grace", "", 0⟩
        { accounts := [⟨1, "Ada", "Lovelace", 42, 0, 0, 0⟩], nextId := 2 } =
      (.error "syntax error",
        { accounts := [⟨1, "Ada", "Lovelace", 42, 0, 0, 0⟩], nextId := 2 }) :=
  ⟨rfl, rfl⟩

/-- C3: creating an account with first "Ada", last "Lovelace" does not
succeed: the INSERT of `CreateAccount` names six target columns but supplies
only four placeholders, so the statement is rejected and the handler returns
the error.  Moreover the in-memory account the handler would return carries
id 0, never a positive store-assigned identifier. -/
theorem createAccountInsertRejected :
    handleCreateAccount 0 12345 "secret" ⟨"Ada", "Lovelace", 0, 0⟩ DB.empty =
      (.error "INSERT has more target columns than expressions", DB.empty) ∧
    (NewAccount "Ada" "Lovelace" 12345 0).id = 0 :=
  ⟨rfl, rfl⟩

/-- C4: with both name fields empty, `UpdateAccount` performs no mutation and
fails with the no-fields-provided error, for every identifier, time and
store state. -/
theorem emptyUpdateRequestFails (req : UpdateAccountRequest)
    (h1 : req.firstName = "") (h2 : req.lastName = "")
    (now id : Int) (db : DB) :
    PostgresStore.UpdateAccount now id req db =
      (.error "no fields provided for update", db) := by
  unfold PostgresStore.UpdateAccount buildUpdateQuery
  simp [h1, h2]

theorem emptyUpdateRequestFails_witness :
    (⟨"", "", 0⟩ : UpdateAccountRequest).firstName = "" ∧
    (⟨"", "", 0⟩ : UpdateAccountRequest).lastName = "" ∧
    PostgresStore.UpdateAccount 5 1 ⟨"", "", 0⟩ DB.empty =
      (.error "no fields provided for update", DB.empty) :=
  ⟨rfl, rfl, emptyUpdateRequestFails ⟨"", "", 0⟩ rfl rfl 5 1 DB.empty⟩

/-- C5: on a route whose path-variable map holds no "id" (GET /account,
POST /account, POST /transfer in `Run`), the middleware always answers with
the single permission-denied write and never runs the wrapped handler,
whatever token is presented: `getId` fails on the empty string before the
ownership stage is reached. -/
theorem routeWithoutIdAlwaysDenied (secret : String) (now : Int)
    (getAccountById : Int → Except String Account) (handlerWrites : List ApiWrite)
    (pathVars : List (String × String)) (h : pathVars.lookup "id" = none)
    (authHeader : TokenInput) :
    withJWTAuth secret now getAccountById handlerWrites pathVars authHeader =
      .output [permissionDeniedWrite] false := by
  have hg : getId pathVars = .error "invalid account ID: " := by
    unfold getId
    rw [h]
    rfl
  cases hv : validateJWTToken secret now authHeader with
  | error e => simp [withJWTAuth, hv]
  | ok tok => simp [withJWTAuth, hv, hg]

theorem routeWithoutIdAlwaysDenied_witness :
    (([] : List (String × String)).lookup "id" = none) ∧
    withJWTAuth "secret" 0 (fun _ => .error "nope") [] [] .malformed =
      .output [permissionDeniedWrite] false :=
  ⟨rfl, routeWithoutIdAlwaysDenied "secret" 0 (fun _ => .error "nope") [] [] rfl .malformed⟩

/-- C6: a token whose expiry claim lies in the past is denied with the single
permission-denied write and the wrapped handler never runs, whatever its
algorithm, signature and account-number claim. -/
theorem expiredTokenDenied (secret : String) (now : Int)
    (getAccountById : Int → Except String Account) (handlerWrites : List ApiWrite)
    (pathVars : List (String × String)) (t : SignedToken) (e : Int)
    (hexp : t.claims.lookup "exp" = some (.num e)) (hpast : e < now) :
    withJWTAuth secret now getAccountById handlerWrites pathVars (.token t) =
      .output [permissionDeniedWrite] false := by
  have hv : ∃ msg, validateJWTToken secret now (.token t) = .error msg := by
    by_cases h1 : t.alg.isHMAC = false
    · exact ⟨"unexpected signing method", by simp [validateJWTToken, h1]⟩
    · by_cases h2 : t.signedWith = secret
      · exact ⟨"token has invalid claims: token is expired",
          by simp [validateJWTToken, h1, h2, hexp, hpast]⟩
      · exact ⟨"signature is invalid", by simp [validateJWTToken, h1, h2]⟩
  obtain ⟨msg, hv⟩ := hv
  simp [withJWTAuth, hv]

theorem expiredTokenDenied_witness :
    ((⟨.HS256, [("acountNumber", .num 42), ("exp", .num 1000)], "secret"⟩ :
        SignedToken).claims.lookup "exp" = some (.num 1000)) ∧
    ((1000 : Int) < 2000) ∧
    withJWTAuth "secret" 2000
        (fun i => if i = 1 then .ok ⟨1, "Ada", "Lovelace", 42, 0, 0, 0⟩ else .error "nope")
        [{ status := 200, body := "ok" }] [("id", "1")]
        (.token ⟨.HS256, [("acountNumber", .num 42), ("exp", .num 1000)], "secret"⟩) =
      .output [permissionDeniedWrite] false :=
  ⟨rfl, by norm_num,
    expiredTokenDenied "secret" 2000
      (fun i => if i = 1 then .ok ⟨1, "Ada", "Lovelace", 42, 0, 0, 0⟩ else .error "nope")
      [{ status := 200, body := "ok" }] [("id", "1")]
      ⟨.HS256, [("acountNumber", .num 42), ("exp", .num 1000)], "secret"⟩ 1000 rfl
      (by norm_num)⟩

/-- C7: a token signed with a secret other than the process-wide one, or
with an algorithm outside the symmetric HMAC family, fails validation and
the middleware denies with the single permission-denied write; the wrapped
handler never runs. -/
theorem badSignatureOrAlgDenied (secret : String) (now : Int)
    (getAccountById : Int → Except String Account) (handlerWrites : List ApiWrite)
    (pathVars : List (String × String)) (t : SignedToken)
    (h : t.alg.isHMAC = false ∨ t.signedWith ≠ secret) :
    withJWTAuth secret now getAccountById handlerWrites pathVars (.token t) =
      .output [permissionDeniedWrite] false := by
  obtain ⟨msg, hv⟩ := validate_error_of_bad secret now t h
  simp [withJWTAuth, hv]

theorem badSignatureOrAlgDenied_witness :
    ((⟨.HS256, [("acountNumber", .num 42), ("exp", .num 1000)], "other"⟩ :
        SignedToken).alg.isHMAC = false ∨
      (⟨.HS256, [("acountNumber", .num 42), ("exp", .num 1000)], "other"⟩ :
        SignedToken).signedWith ≠ "secret") ∧
    withJWTAuth "secret" 0
        (fun i => if i = 1 then .ok ⟨1, "Ada", "Lovelace", 42, 0, 0, 0⟩ else .error "nope")
        [] [("id", "1")]
        (.token ⟨.HS256, [("acountNumber", .num 42), ("exp", .num 1000)], "other"⟩) =
      .output [permissionDeniedWrite] false :=
  ⟨Or.inr (by decide),
    badSignatureOrAlgDenied "secret" 0
      (fun i => if i = 1 then .ok ⟨1, "Ada", "Lovelace", 42, 0, 0, 0⟩ else .error "nope")
      [] [("id", "1")]
      ⟨.HS256, [("acountNumber", .num 42), ("exp", .num 1000)], "other"⟩
      (Or.inr (by decide))⟩

/-- C8: no operation of the core mutates any balance: starting from a state
in which every persisted balance is 0 (the value every account is created
with), any sequence of create, read, update, delete and transfer operations
leaves every persisted balance 0 — the update statements never mention the
balance column, and transfers never touch the store at all. -/
theorem balancesNeverMutated (ops : List Op) (db : DB)
    (h : ∀ a ∈ db.accounts, a.balance = 0) :
    ∀ a ∈ (runOps db ops).accounts, a.balance = 0 := by
  induction ops generalizing db with
  | nil => exact h
  | cons op rest ih =>
    simp only [runOps, List.foldl] at *
    exact ih (runOp db op) (runOp_balance db op h)

theorem balancesNeverMutated_witness :
    (∀ a ∈ DB.empty.accounts, a.balance = 0) ∧
    (∀ a ∈ (runOps DB.empty
        [Op.create ⟨"Ada", "Lovelace", 0, 0⟩ 12345 0,
         Op.update 1 ⟨"Grace", "", 5⟩ 5,
         Op.transfer ⟨"t"⟩,
         Op.delete 1]).accounts, a.balance = 0) :=
  ⟨by simp [DB.empty],
    balancesNeverMutated
      [Op.create ⟨"Ada", "Lovelace", 0, 0⟩ 12345 0,
       Op.update 1 ⟨"Grace", "", 5⟩ 5,
       Op.transfer ⟨"t"⟩,
       Op.delete 1] DB.empty (by simp [DB.empty])⟩

/-- C9: deleting an identifier that references no existing account returns
success — the affected-row count is never checked — and the store state is
unchanged. -/
theorem deleteNonexistentSucceeds (id : Int) (db : DB)
    (h : ∀ a ∈ db.accounts, a.id ≠ id) :
    PostgresStore.DeleteAccount id db = (.ok (), db) := by
  rw [deleteAccount_eq]
  have hf : db.accounts.filter (fun a => a.id != id) = db.accounts := by
    rw [List.filter_eq_self]
    intro a ha
    simpa [bne_iff_ne] using h a ha
  simp [hf]

theorem deleteNonexistentSucceeds_witness :
    (∀ a ∈ ({ accounts := [⟨1, "Ada", "Lovelace", 42, 0, 0, 0⟩], nextId := 2 } : DB).accounts,
      a.id ≠ 7) ∧
    PostgresStore.DeleteAccount 7
        { accounts := [⟨1, "Ada", "Lovelace", 42, 0, 0, 0⟩], nextId := 2 } =
      (.ok (), { accounts := [⟨1, "Ada", "Lovelace", 42, 0, 0, 0⟩], nextId := 2 }) :=
  ⟨by decide,
    deleteNonexistentSucceeds 7
      { accounts := [⟨1, "Ada", "Lovelace", 42, 0, 0, 0⟩], nextId := 2 } (by decide)⟩

/-- C10 counterexample: a token signed via HS256 with the correct process
secret and unexpired, but lacking the "acountNumber" claim, passes
validation, yet the middleware's unchecked type assertion panics on it —
refuting the claim that extraction can never fail for a validated token. -/
theorem validatedTokenWithoutClaimPanics :
    validateJWTToken "secret" 0 (.token ⟨.HS256, [("exp", .num 1000)], "secret"⟩) =
      .ok ⟨.HS256, [("exp", .num 1000)], "secret"⟩ ∧
    withJWTAuth "secret" 0
        (fun i => if i = 1 then .ok ⟨1, "Ada", "Lovelace", 42, 0, 0, 0⟩ else .error "nope")
        [] [("id", "1")] (.token ⟨.HS256, [("exp", .num 1000)], "secret"⟩) =
      .panicked :=
  ⟨rfl, rfl⟩

/-- C10 amended: for tokens issued by `createJWTToken` — the only issuer in
the program — the claims map always contains "acountNumber" with a numeric
value, so the middleware's claim extraction never panics on them; an
arbitrary token that merely passes validation carries no such guarantee. -/
theorem issuedTokenNeverPanics (secret : String) (now issuedAt : Int)
    (account : Account) (getAccountById : Int → Except String Account)
    (handlerWrites : List ApiWrite) (pathVars : List (String × String)) :
    withJWTAuth secret now getAccountById handlerWrites pathVars
      (.token (createJWTToken secret issuedAt account)) ≠ .panicked := by
  have hval : validateJWTToken secret now (.token (createJWTToken secret issuedAt account)) =
      (if issuedAt + 72 * 3600 < now then
        Except.error "token has invalid claims: token is expired"
      else Except.ok (createJWTToken secret issuedAt account)) := by
    have hstep : validateJWTToken secret now (.token (createJWTToken secret issuedAt account)) =
        (if secret ≠ secret then Except.error "signature is invalid"
         else if issuedAt + 72 * 3600 < now then
           Except.error "token has invalid claims: token is expired"
         else Except.ok (createJWTToken secret issuedAt account)) := rfl
    rw [hstep, if_neg (fun hne => hne rfl)]
  by_cases hexp : issuedAt + 72 * 3600 < now
  · rw [if_pos hexp] at hval
    simp [withJWTAuth, hval]
  · rw [if_neg hexp] at hval
    unfold withJWTAuth
    rw [hval]
    cases hgid : getId pathVars with
    | error e => simp
    | ok uid =>
      cases hacct : getAccountById uid with
      | error e => simp [hacct]
      | ok acct =>
        have hlook : (createJWTToken secret issuedAt account).claims.lookup "acountNumber" =
            some (ClaimValue.num account.number) := rfl
        by_cases hn : acct.number = account.number <;> simp [hacct, hlook, hn]

end GoBank
